import Mathlib

/-!
Verification of the ERASynth Micro serial driver (`inst_ERASynthMicro.py`).

The driver is embedded shallowly: every driver method is modelled as the
list of transport events it performs, in order.  Writing a command over the
serial link, flushing, sleeping, reading a line and emitting a log record
are each one event.  Query return values are modelled as pure functions of
the raw line read back.  Python `str.lower` and `str.strip` are modelled as
structural character-list operations (the driver only ever matches ASCII
alias strings and trims ASCII whitespace).  Info-level log records carry no
payload in the model (no claim inspects their interpolated text); warning
records carry their exact message, which the code builds by concatenation.
-/

namespace ERASynthMicro

/-- One observable action of the driver on its collaborators: a serial
write of a command string (the transmitted bytes are the string followed by
one CR), a flush, a sleep of the given number of milliseconds, a blocking
line read, or a log record. -/
inductive Ev where
  | write (cmd : String)
  | flush
  | sleep (ms : Nat)
  | readLine
  | logInfo
  | logWarn (msg : String)
deriving DecidableEq

/-- A Python value as far as `__num_to_str` discriminates them: a float
(an IEEE double is always an exact rational), an int, a str, or anything
else. -/
inductive PyVal where
  | pyFloat (q : Rat)
  | pyInt (n : Int)
  | pyStr (s : String)
  | other
deriving DecidableEq

/-- Python `int(x)` on a float: truncation toward zero. -/
def ratTrunc (q : Rat) : Int := q.num.tdiv (q.den : Int)

/-- Encoder `__num_to_str` (src/inst_ERASynthMicro.py:116-125): floats are
truncated to int and rendered in decimal, ints rendered directly, strings
(the unimplemented SI-unit branch) and anything else render as "0". -/
def num_to_str : PyVal → String
  | .pyFloat q => toString (ratTrunc q)
  | .pyInt n => toString n
  | .pyStr _ => "0"
  | .other => "0"

/-- Python `str.lower` restricted to ASCII, which covers every alias the
driver matches against. -/
def pyLower (s : String) : String := ⟨s.data.map Char.toLower⟩

/-- ASCII whitespace as stripped by Python `str.strip()`. -/
def isWs (c : Char) : Bool :=
  c = ' ' || c = '\t' || c = '\n' || c = '\r' || c = '\x0b' || c = '\x0c'

/-- Strip leading and trailing whitespace from a character list. -/
def stripData (l : List Char) : List Char :=
  (l.dropWhile isWs).rdropWhile isWs

/-- Python `str.strip()`. -/
def pyStrip (s : String) : String := ⟨stripData s.data⟩

/-- Delay `__SEND_DELAY` = 0.1 s, expressed in milliseconds. -/
def SEND_DELAY_MS : Nat := 100

/-- Terminator `__EOL`: commands are terminated with a single carriage return. -/
def EOL : String := "\r"

/-- The byte sequence put on the wire for one command: the ASCII command
string followed by the CR terminator. -/
def transmitted (cmd : String) : String := cmd ++ EOL

/-- Primitive `__send_cmd` (src/inst_ERASynthMicro.py:69-76): write the command plus
CR, flush, then sleep the fixed settle delay. -/
def send_cmd (cmd : String) : List Ev :=
  [Ev.write cmd, Ev.flush, Ev.sleep SEND_DELAY_MS]

/-- Primitive `__send_cmd_resp` (src/inst_ERASynthMicro.py:78-87), trace part: write
the command plus CR, flush, then immediately read one line.  No sleep. -/
def send_cmd_resp_trace (cmd : String) : List Ev :=
  [Ev.write cmd, Ev.flush, Ev.readLine]

/-- Primitive `__send_cmd_resp`, value part: the raw line read back is stripped
twice (`resp.strip()` then `.strip()` again) and returned. -/
def send_cmd_resp_ret (raw : String) : String := pyStrip (pyStrip raw)

/-- Method `refresh_lcd_home`: refresh the HOME screen. -/
def refresh_lcd_home : List Ev := send_cmd ">GH"

def set_rf_on : List Ev :=
  send_cmd ">SF1" ++ [Ev.logInfo] ++ refresh_lcd_home

def set_rf_off : List Ev :=
  send_cmd ">SF0" ++ [Ev.logInfo] ++ refresh_lcd_home

def set_frequency (freq : PyVal) : List Ev :=
  send_cmd (">F" ++ num_to_str freq) ++ [Ev.logInfo] ++ refresh_lcd_home

/-- Method `set_amplitude` uses `str(ampl)` directly, not `__num_to_str`; the
in-scope argument kind is an int (default 0), rendered in plain decimal. -/
def set_amplitude (ampl : Int) : List Ev :=
  send_cmd (">SA" ++ toString ampl) ++ [Ev.logInfo] ++ refresh_lcd_home

def set_modulation_on : List Ev :=
  send_cmd ">SM1" ++ [Ev.logInfo] ++ refresh_lcd_home

def set_modulation_off : List Ev :=
  send_cmd ">SM0" ++ [Ev.logInfo] ++ refresh_lcd_home

def set_modulation_source_internal : List Ev :=
  send_cmd ">SMI0" ++ [Ev.logInfo] ++ refresh_lcd_home

def set_modulation_source_external : List Ev :=
  send_cmd ">SMI1" ++ [Ev.logInfo] ++ refresh_lcd_home

def set_modulation_source_microphone : List Ev :=
  send_cmd ">SMI2" ++ [Ev.logInfo] ++ refresh_lcd_home

def set_modulation_source (source : String) : List Ev :=
  (if pyLower source ∈ ["internal", "int"] then set_modulation_source_internal
   else if pyLower source ∈ ["external", "ext"] then set_modulation_source_external
   else if pyLower source ∈ ["microphone", "mic"] then set_modulation_source_microphone
   else [Ev.logWarn ("Modulation source not set, incorrect source: " ++ pyLower source)])
  ++ refresh_lcd_home

def set_modulation_type_am : List Ev :=
  send_cmd ">SMT0" ++ [Ev.logInfo] ++ refresh_lcd_home

def set_modulation_type_fm : List Ev :=
  send_cmd ">SMT1" ++ [Ev.logInfo] ++ refresh_lcd_home

def set_modulation_type_pulse : List Ev :=
  send_cmd ">SMT2" ++ [Ev.logInfo] ++ refresh_lcd_home

def set_modulation_type (mod_type : String) : List Ev :=
  (if pyLower mod_type ∈ ["am", "amplitude"] then set_modulation_type_am
   else if pyLower mod_type ∈ ["fm", "frequency"] then set_modulation_type_fm
   else if pyLower mod_type ∈ ["pulse"] then set_modulation_type_pulse
   else [Ev.logWarn ("Modulation type not set, incorrect type: " ++ pyLower mod_type)])
  ++ refresh_lcd_home

def set_modulation_wave_sine : List Ev :=
  send_cmd ">SMW0" ++ [Ev.logInfo] ++ refresh_lcd_home

def set_modulation_wave_ramp : List Ev :=
  send_cmd ">SMW1" ++ [Ev.logInfo] ++ refresh_lcd_home

def set_modulation_wave_square : List Ev :=
  send_cmd ">SMW2" ++ [Ev.logInfo] ++ refresh_lcd_home

def set_modulation_wave_triangle : List Ev :=
  send_cmd ">SMW0" ++ [Ev.logInfo] ++ refresh_lcd_home

def set_modulation_wave_type (wave : String) : List Ev :=
  (if pyLower wave ∈ ["sine"] then set_modulation_wave_sine
   else if pyLower wave ∈ ["ramp"] then set_modulation_wave_ramp
   else if pyLower wave ∈ ["square"] then set_modulation_wave_square
   else if pyLower wave ∈ ["triangle"] then set_modulation_wave_triangle
   else [Ev.logWarn ("Modulation wave type not set, incorrect wave: " ++ pyLower wave)])
  ++ refresh_lcd_home

def set_modulation_frequency (freq : PyVal) : List Ev :=
  send_cmd (">SMF" ++ num_to_str freq) ++ [Ev.logInfo] ++ refresh_lcd_home

def set_modulation_am_depth (depth : Int) : List Ev :=
  send_cmd (">SMA" ++ toString depth) ++ [Ev.logInfo] ++ refresh_lcd_home

def set_modulation_fm_deviation (deviation : PyVal) : List Ev :=
  send_cmd (">SMFD" ++ num_to_str deviation) ++ [Ev.logInfo] ++ refresh_lcd_home

def set_modulation_pulse_period_us (period : PyVal) : List Ev :=
  send_cmd (">SMPP" ++ num_to_str period) ++ [Ev.logInfo] ++ refresh_lcd_home

def set_modulation_pulse_width_us (width : PyVal) : List Ev :=
  send_cmd (">SMPW" ++ num_to_str width) ++ [Ev.logInfo] ++ refresh_lcd_home

def set_sweep_on : List Ev :=
  send_cmd ">SS5" ++ [Ev.logInfo] ++ refresh_lcd_home

def set_sweep_off : List Ev :=
  send_cmd ">SS6" ++ [Ev.logInfo] ++ refresh_lcd_home

def set_sweep_trigger_freerun : List Ev :=
  send_cmd ">SS70" ++ [Ev.logInfo] ++ refresh_lcd_home

def set_sweep_trigger_external : List Ev :=
  send_cmd ">SS71" ++ [Ev.logInfo] ++ refresh_lcd_home

def set_sweep_trigger (trigger : String) : List Ev :=
  (if pyLower trigger ∈ ["free", "freerun"] then set_sweep_trigger_freerun
   else if pyLower trigger ∈ ["ext", "external"] then set_sweep_trigger_external
   else [Ev.logWarn ("Sweep trigger not set, incorrect type: " ++ pyLower trigger)])
  ++ refresh_lcd_home

def set_sweep_start_frequency (freq : PyVal) : List Ev :=
  send_cmd (">SS1" ++ num_to_str freq) ++ [Ev.logInfo] ++ refresh_lcd_home

def set_sweep_stop_frequency (freq : PyVal) : List Ev :=
  send_cmd (">SS2" ++ num_to_str freq) ++ [Ev.logInfo] ++ refresh_lcd_home

def set_sweep_step_frequency (freq : PyVal) : List Ev :=
  send_cmd (">SS3" ++ num_to_str freq) ++ [Ev.logInfo] ++ refresh_lcd_home

def set_sweep_dwell_time_us (dwell : PyVal) : List Ev :=
  send_cmd (">SS4" ++ num_to_str dwell) ++ [Ev.logInfo] ++ refresh_lcd_home

def set_ref_source_internal : List Ev :=
  send_cmd ">SR0" ++ [Ev.logInfo] ++ refresh_lcd_home

def set_ref_source_external : List Ev :=
  send_cmd ">SR1" ++ [Ev.logInfo] ++ refresh_lcd_home

def set_ref_source (source : String) : List Ev :=
  (if pyLower source ∈ ["internal", "int"] then set_ref_source_internal
   else if pyLower source ∈ ["external", "ext"] then set_ref_source_external
   else [Ev.logWarn ("Reference source not set, incorrect source: " ++ pyLower source)])
  ++ refresh_lcd_home

def set_vibration_on : List Ev :=
  send_cmd ">SV1" ++ [Ev.logInfo] ++ refresh_lcd_home

def set_vibration_off : List Ev :=
  send_cmd ">SV0" ++ [Ev.logInfo] ++ refresh_lcd_home

/-- Dispatcher `set_vibration` (src/inst_ERASynthMicro.py:373-382): unlike every other
alias dispatcher it has no trailing `refresh_lcd_home` of its own. -/
def set_vibration (vibration : String) : List Ev :=
  if pyLower vibration ∈ ["on"] then set_vibration_on
  else if pyLower vibration ∈ ["off"] then set_vibration_off
  else [Ev.logWarn ("Vibration setting not set, incorrect option: " ++ pyLower vibration)]

/-- Method `vibrate_30ms`: sends `>GV` and, uniquely among the mutating
operations, performs no screen refresh. -/
def vibrate_30ms : List Ev :=
  send_cmd ">GV" ++ [Ev.logInfo]

/-- Method `set_preset` (src/inst_ERASynthMicro.py:394-411): the composite preset,
calling the six setters with their Python default arguments (frequency
default `1e9`, a float; amplitude default `0`, an int) and then one extra
refresh. -/
def set_preset : List Ev :=
  set_rf_off ++ set_frequency (.pyFloat 1000000000) ++ set_amplitude 0
  ++ set_modulation_off ++ set_sweep_off ++ set_ref_source_internal
  ++ refresh_lcd_home

def get_temperature_trace : List Ev := send_cmd_resp_trace ">RT"

def get_temperature_ret (raw : String) : String := send_cmd_resp_ret raw

def get_current_trace : List Ev := send_cmd_resp_trace ">RC"

def get_current_ret (raw : String) : String := send_cmd_resp_ret raw

/-- One public operation of the driver, with its argument where it has
one.  This enumerates the full public surface of the class. -/
inductive Op where
  | set_rf_on
  | set_rf_off
  | refresh_lcd_home
  | set_frequency (freq : PyVal)
  | set_amplitude (ampl : Int)
  | set_modulation_on
  | set_modulation_off
  | set_modulation_source_internal
  | set_modulation_source_external
  | set_modulation_source_microphone
  | set_modulation_source (source : String)
  | set_modulation_type_am
  | set_modulation_type_fm
  | set_modulation_type_pulse
  | set_modulation_type (mod_type : String)
  | set_modulation_wave_sine
  | set_modulation_wave_ramp
  | set_modulation_wave_square
  | set_modulation_wave_triangle
  | set_modulation_wave_type (wave : String)
  | set_modulation_frequency (freq : PyVal)
  | set_modulation_am_depth (depth : Int)
  | set_modulation_fm_deviation (deviation : PyVal)
  | set_modulation_pulse_period_us (period : PyVal)
  | set_modulation_pulse_width_us (width : PyVal)
  | set_sweep_on
  | set_sweep_off
  | set_sweep_trigger_freerun
  | set_sweep_trigger_external
  | set_sweep_trigger (trigger : String)
  | set_sweep_start_frequency (freq : PyVal)
  | set_sweep_stop_frequency (freq : PyVal)
  | set_sweep_step_frequency (freq : PyVal)
  | set_sweep_dwell_time_us (dwell : PyVal)
  | set_ref_source_internal
  | set_ref_source_external
  | set_ref_source (source : String)
  | set_vibration_on
  | set_vibration_off
  | set_vibration (vibration : String)
  | vibrate_30ms
  | set_preset
  | get_temperature
  | get_current

/-- The event trace one call of the given operation performs. -/
def run : Op → List Ev
  | .set_rf_on => set_rf_on
  | .set_rf_off => set_rf_off
  | .refresh_lcd_home => refresh_lcd_home
  | .set_frequency v => set_frequency v
  | .set_amplitude a => set_amplitude a
  | .set_modulation_on => set_modulation_on
  | .set_modulation_off => set_modulation_off
  | .set_modulation_source_internal => set_modulation_source_internal
  | .set_modulation_source_external => set_modulation_source_external
  | .set_modulation_source_microphone => set_modulation_source_microphone
  | .set_modulation_source s => set_modulation_source s
  | .set_modulation_type_am => set_modulation_type_am
  | .set_modulation_type_fm => set_modulation_type_fm
  | .set_modulation_type_pulse => set_modulation_type_pulse
  | .set_modulation_type s => set_modulation_type s
  | .set_modulation_wave_sine => set_modulation_wave_sine
  | .set_modulation_wave_ramp => set_modulation_wave_ramp
  | .set_modulation_wave_square => set_modulation_wave_square
  | .set_modulation_wave_triangle => set_modulation_wave_triangle
  | .set_modulation_wave_type s => set_modulation_wave_type s
  | .set_modulation_frequency v => set_modulation_frequency v
  | .set_modulation_am_depth d => set_modulation_am_depth d
  | .set_modulation_fm_deviation v => set_modulation_fm_deviation v
  | .set_modulation_pulse_period_us v => set_modulation_pulse_period_us v
  | .set_modulation_pulse_width_us v => set_modulation_pulse_width_us v
  | .set_sweep_on => set_sweep_on
  | .set_sweep_off => set_sweep_off
  | .set_sweep_trigger_freerun => set_sweep_trigger_freerun
  | .set_sweep_trigger_external => set_sweep_trigger_external
  | .set_sweep_trigger s => set_sweep_trigger s
  | .set_sweep_start_frequency v => set_sweep_start_frequency v
  | .set_sweep_stop_frequency v => set_sweep_stop_frequency v
  | .set_sweep_step_frequency v => set_sweep_step_frequency v
  | .set_sweep_dwell_time_us v => set_sweep_dwell_time_us v
  | .set_ref_source_internal => set_ref_source_internal
  | .set_ref_source_external => set_ref_source_external
  | .set_ref_source s => set_ref_source s
  | .set_vibration_on => set_vibration_on
  | .set_vibration_off => set_vibration_off
  | .set_vibration s => set_vibration s
  | .vibrate_30ms => vibrate_30ms
  | .set_preset => set_preset
  | .get_temperature => get_temperature_trace
  | .get_current => get_current_trace

/-- The command strings written over the serial link by a trace, in
order. -/
def wire (t : List Ev) : List String :=
  t.filterMap fun e =>
    match e with
    | Ev.write c => some c
    | _ => none

/-- How many `>GH` (refresh home screen) commands a trace writes. -/
def refreshCount (t : List Ev) : Nat := (wire t).count ">GH"

/-- Does a sleep of at least `SEND_DELAY_MS` occur before the next write
(or the end of the trace)? -/
def sleepBeforeNextWrite : List Ev → Bool
  | [] => true
  | Ev.write _ :: _ => false
  | Ev.sleep m :: rest =>
    if SEND_DELAY_MS ≤ m then true else sleepBeforeNextWrite rest
  | _ :: rest => sleepBeforeNextWrite rest

/-- Every write in the trace is followed by a settle sleep of at least
`SEND_DELAY_MS` milliseconds before any later write. -/
def allWritesSettled : List Ev → Bool
  | [] => true
  | Ev.write _ :: rest => sleepBeforeNextWrite rest && allWritesSettled rest
  | _ :: rest => allWritesSettled rest

/-- Does the trace contain any sleep event at all? -/
def hasSleep (t : List Ev) : Bool :=
  t.any fun e =>
    match e with
    | Ev.sleep _ => true
    | _ => false

/-- Alias-to-wire-code table for the modulation source, transcribed from
the spec's alias sets and command table, to be compared against the
driver's dispatcher. -/
def specModulationSourceCode (a : String) : Option String :=
  if a ∈ ["internal", "int"] then some ">SMI0"
  else if a ∈ ["external", "ext"] then some ">SMI1"
  else if a ∈ ["microphone", "mic"] then some ">SMI2"
  else none

/-- Spec table: modulation type aliases to wire codes. -/
def specModulationTypeCode (a : String) : Option String :=
  if a ∈ ["am", "amplitude"] then some ">SMT0"
  else if a ∈ ["fm", "frequency"] then some ">SMT1"
  else if a ∈ ["pulse"] then some ">SMT2"
  else none

/-- Spec table: modulation waveform aliases to wire codes (triangle shares
`>SMW0` with sine, as the spec records). -/
def specWaveCode (a : String) : Option String :=
  if a ∈ ["sine"] then some ">SMW0"
  else if a ∈ ["ramp"] then some ">SMW1"
  else if a ∈ ["square"] then some ">SMW2"
  else if a ∈ ["triangle"] then some ">SMW0"
  else none

/-- Spec table: sweep trigger aliases to wire codes. -/
def specSweepTriggerCode (a : String) : Option String :=
  if a ∈ ["free", "freerun"] then some ">SS70"
  else if a ∈ ["ext", "external"] then some ">SS71"
  else none

/-- Spec table: reference source aliases to wire codes. -/
def specRefSourceCode (a : String) : Option String :=
  if a ∈ ["internal", "int"] then some ">SR0"
  else if a ∈ ["external", "ext"] then some ">SR1"
  else none

/-- Spec table: vibration aliases to wire codes. -/
def specVibrationCode (a : String) : Option String :=
  if a ∈ ["on"] then some ">SV1"
  else if a ∈ ["off"] then some ">SV0"
  else none

/-- The command lines a refresh-appending dispatcher actually puts on the
wire, as a function of the table lookup: on a match, the setting code plus
the inner setter's refresh plus the dispatcher's own refresh; on no match,
just the dispatcher's refresh. -/
def dispatcherWire (t : Option String) : List String :=
  match t with
  | some c => [c, ">GH", ">GH"]
  | none => [">GH"]

/-- The command lines `set_vibration` puts on the wire: on a match, the
setting code plus the inner setter's refresh; on no match, nothing. -/
def vibrationWire (t : Option String) : List String :=
  match t with
  | some c => [c, ">GH"]
  | none => []

/-- The fixed serial-link settings requested by the constructor. -/
structure SerialSettings where
  baudrate : Nat
  timeoutSec : Nat
  rtscts : Bool
  xonxoff : Bool
deriving DecidableEq

/-- Settings `serial.Serial(port, baudrate=9600, timeout=1, rtscts=True,
xonxoff=True)` as requested at construction. -/
def requestedSettings : SerialSettings :=
  { baudrate := 9600, timeoutSec := 1, rtscts := true, xonxoff := true }

/-- Constructor `__init__` (src/inst_ERASynthMicro.py:47-58), embedded as a fallible
constructor: opening the port either succeeds or raises
`serial.SerialException`; on the exception the code logs an error and
calls `sys.exit()`, so no driver object ever exists (`none`) and nothing
further runs; on success the driver holds the fixed link settings.  The
body performs no serial writes, reads or sleeps. -/
def instERASynthMicro_init (portOpens : Bool) : Option SerialSettings :=
  if portOpens then some requestedSettings else none

/-- The transport events performed by the constructor body itself (none:
it only opens the port). -/
def init_trace : List Ev := []

end ERASynthMicro

namespace ERASynthMicro

/-- No digit character produced by `Nat.digitChar` is a carriage return. -/
theorem digitChar_ne_cr (m : Nat) : Nat.digitChar m ≠ '\r' := by
  by_cases h16 : m < 16
  · interval_cases m <;> decide
  · intro h
    unfold Nat.digitChar at h
    iterate 16 rw [if_neg (by omega)] at h
    exact absurd h (by decide)

/-- Accumulating digits never introduces a carriage return. -/
theorem toDigitsCore_ne_cr (fuel : Nat) :
    ∀ (n : Nat) (ds : List Char), (∀ x ∈ ds, x ≠ '\r') →
      ∀ x ∈ Nat.toDigitsCore 10 fuel n ds, x ≠ '\r' := by
  induction fuel with
  | zero =>
    intro n ds h x hx
    simp only [Nat.toDigitsCore] at hx
    exact h x hx
  | succ fuel ih =>
    intro n ds h x hx
    simp only [Nat.toDigitsCore] at hx
    split at hx
    · rcases List.mem_cons.mp hx with rfl | hmem
      · exact digitChar_ne_cr _
      · exact h _ hmem
    · refine ih _ _ ?_ x hx
      intro y hy
      rcases List.mem_cons.mp hy with rfl | hmem
      · exact digitChar_ne_cr _
      · exact h _ hmem

/-- The decimal rendering of a natural number contains no carriage
return. -/
theorem natRepr_ne_cr (n : Nat) : ∀ x ∈ (Nat.repr n).data, x ≠ '\r' :=
  fun x hx => toDigitsCore_ne_cr (n + 1) n [] (by simp) x hx

/-- The decimal rendering of an integer contains no carriage return. -/
theorem intToString_ne_cr (i : Int) : ∀ x ∈ (toString i).data, x ≠ '\r' := by
  cases i with
  | ofNat m => exact natRepr_ne_cr m
  | negSucc m =>
    intro x hx
    have hx' : x ∈ '-' :: (Nat.repr (m + 1)).data := hx
    rcases List.mem_cons.mp hx' with rfl | hmem
    · decide
    · exact natRepr_ne_cr _ x hmem

/-- Character lists free of `'\r'` have a zero CR count. -/
theorem count_cr_zero_of_ne (l : List Char) (h : ∀ x ∈ l, x ≠ '\r') :
    l.count '\r' = 0 :=
  List.count_eq_zero.mpr fun hmem => h _ hmem rfl

/-- The decimal rendering of an integer has a zero CR count. -/
theorem intToString_crFree (i : Int) : (toString i).data.count '\r' = 0 :=
  count_cr_zero_of_ne _ (intToString_ne_cr i)

/-- The output of the numeric encoder has a zero CR count. -/
theorem num_to_str_crFree (v : PyVal) : (num_to_str v).data.count '\r' = 0 := by
  cases v with
  | pyFloat q => exact intToString_crFree (ratTrunc q)
  | pyInt n => exact intToString_crFree n
  | pyStr s => exact (by decide : ("0" : String).data.count '\r' = 0)
  | other => decide

/-- CR-count of a concatenation of CR-free strings is zero. -/
theorem crFree_append (a b : String) (ha : a.data.count '\r' = 0)
    (hb : b.data.count '\r' = 0) : (a ++ b).data.count '\r' = 0 := by
  rw [String.data_append, List.count_append, ha, hb]

/-- A command built as a two-character prefix (whose second character is
not `'G'`) plus a parameter string never equals the refresh command. -/
theorem append_ne_GH (p x : String) (c : Char) (cs : List Char)
    (hp : p.data = '>' :: c :: cs) (hc : c ≠ 'G') : p ++ x ≠ ">GH" := by
  intro hEq
  have hd : p.data ++ x.data = ['>', 'G', 'H'] := by
    rw [← String.data_append, hEq]
  rw [hp] at hd
  simp only [List.cons_append] at hd
  injection hd with _ hd2
  injection hd2 with hc2 _
  exact hc hc2

/-- A leaf fire-and-settle setter (command, log record, refresh) performs
exactly one refresh when its own command is not the refresh command. -/
theorem refreshCount_leaf (cmd : String) (h : cmd ≠ ">GH") :
    refreshCount (send_cmd cmd ++ [Ev.logInfo] ++ refresh_lcd_home) = 1 := by
  show ([cmd, ">GH"] : List String).count ">GH" = 1
  simp [List.count_cons, h]

/-- A prefix of a list that is already fully left-stripped is itself
fully left-stripped. -/
theorem dropWhile_eq_self_of_prefix {α : Type} (p : α → Bool) (A B : List α)
    (hBA : ∃ t, B ++ t = A) (hA : A.dropWhile p = A) : B.dropWhile p = B := by
  cases B with
  | nil => rfl
  | cons b bs =>
    obtain ⟨t, ht⟩ := hBA
    have hAeq : A = b :: (bs ++ t) := by rw [← ht]; rfl
    rw [hAeq, List.dropWhile_cons] at hA
    by_cases hb : p b = true
    · rw [if_pos hb] at hA
      have hlen := congrArg List.length hA
      have hle := (List.dropWhile_suffix (l := bs ++ t) p).length_le
      simp only [List.length_cons] at hlen
      omega
    · rw [List.dropWhile_cons, if_neg hb]

/-- Stripping whitespace from both ends of a character list is
idempotent. -/
theorem stripData_idem (l : List Char) : stripData (stripData l) = stripData l := by
  unfold stripData
  have h1 : ((l.dropWhile isWs).rdropWhile isWs).dropWhile isWs
      = (l.dropWhile isWs).rdropWhile isWs :=
    dropWhile_eq_self_of_prefix isWs (l.dropWhile isWs) _
      ( List.rdropWhile_prefix isWs (l.dropWhile isWs))
      ( List.dropWhile_idempotent isWs l)
  rw [h1, List.rdropWhile_idempotent]

/-- Stripping a string twice equals stripping it once. -/
theorem pyStrip_idem (s : String) : pyStrip (pyStrip s) = pyStrip s :=
  congrArg String.mk (stripData_idem s.data)

/-- Wire behaviour of the modulation-source dispatcher: the written lines
agree with the spec table (inner refresh plus dispatcher refresh on a
match, lone refresh on no match), and a failed match records the exact
diagnostic. -/
theorem set_modulation_source_wire_spec (s : String) :
    wire (run (Op.set_modulation_source s))
      = dispatcherWire (specModulationSourceCode (pyLower s)) ∧
    (specModulationSourceCode (pyLower s) = none →
      Ev.logWarn ("Modulation source not set, incorrect source: " ++ pyLower s)
        ∈ run (Op.set_modulation_source s)) := by
  show wire (set_modulation_source s) = _ ∧ (_ → _ ∈ set_modulation_source s)
  unfold set_modulation_source specModulationSourceCode
  by_cases h1 : pyLower s ∈ (["internal", "int"] : List String)
  · simp only [if_pos h1]
    exact ⟨by decide, fun h => Option.noConfusion h⟩
  · simp only [if_neg h1]
    by_cases h2 : pyLower s ∈ (["external", "ext"] : List String)
    · simp only [if_pos h2]
      exact ⟨by decide, fun h => Option.noConfusion h⟩
    · simp only [if_neg h2]
      by_cases h3 : pyLower s ∈ (["microphone", "mic"] : List String)
      · simp only [if_pos h3]
        exact ⟨by decide, fun h => Option.noConfusion h⟩
      · simp only [if_neg h3]
        exact ⟨rfl, fun _ => by simp⟩

/-- Wire behaviour of the modulation-type dispatcher against the spec
table, with the diagnostic on a failed match. -/
theorem set_modulation_type_wire_spec (s : String) :
    wire (run (Op.set_modulation_type s))
      = dispatcherWire (specModulationTypeCode (pyLower s)) ∧
    (specModulationTypeCode (pyLower s) = none →
      Ev.logWarn ("Modulation type not set, incorrect type: " ++ pyLower s)
        ∈ run (Op.set_modulation_type s)) := by
  show wire (set_modulation_type s) = _ ∧ (_ → _ ∈ set_modulation_type s)
  unfold set_modulation_type specModulationTypeCode
  by_cases h1 : pyLower s ∈ (["am", "amplitude"] : List String)
  · simp only [if_pos h1]
    exact ⟨by decide, fun h => Option.noConfusion h⟩
  · simp only [if_neg h1]
    by_cases h2 : pyLower s ∈ (["fm", "frequency"] : List String)
    · simp only [if_pos h2]
      exact ⟨by decide, fun h => Option.noConfusion h⟩
    · simp only [if_neg h2]
      by_cases h3 : pyLower s ∈ (["pulse"] : List String)
      · simp only [if_pos h3]
        exact ⟨by decide, fun h => Option.noConfusion h⟩
      · simp only [if_neg h3]
        exact ⟨rfl, fun _ => by simp⟩

/-- Wire behaviour of the waveform dispatcher against the spec table,
with the diagnostic on a failed match. -/
theorem set_modulation_wave_type_wire_spec (s : String) :
    wire (run (Op.set_modulation_wave_type s))
      = dispatcherWire (specWaveCode (pyLower s)) ∧
    (specWaveCode (pyLower s) = none →
      Ev.logWarn ("Modulation wave type not set, incorrect wave: " ++ pyLower s)
        ∈ run (Op.set_modulation_wave_type s)) := by
  show wire (set_modulation_wave_type s) = _ ∧ (_ → _ ∈ set_modulation_wave_type s)
  unfold set_modulation_wave_type specWaveCode
  by_cases h1 : pyLower s ∈ (["sine"] : List String)
  · simp only [if_pos h1]
    exact ⟨by decide, fun h => Option.noConfusion h⟩
  · simp only [if_neg h1]
    by_cases h2 : pyLower s ∈ (["ramp"] : List String)
    · simp only [if_pos h2]
      exact ⟨by decide, fun h => Option.noConfusion h⟩
    · simp only [if_neg h2]
      by_cases h3 : pyLower s ∈ (["square"] : List String)
      · simp only [if_pos h3]
        exact ⟨by decide, fun h => Option.noConfusion h⟩
      · simp only [if_neg h3]
        by_cases h4 : pyLower s ∈ (["triangle"] : List String)
        · simp only [if_pos h4]
          exact ⟨by decide, fun h => Option.noConfusion h⟩
        · simp only [if_neg h4]
          exact ⟨rfl, fun _ => by simp⟩

/-- Wire behaviour of the sweep-trigger dispatcher against the spec
table, with the diagnostic on a failed match. -/
theorem set_sweep_trigger_wire_spec (s : String) :
    wire (run (Op.set_sweep_trigger s))
      = dispatcherWire (specSweepTriggerCode (pyLower s)) ∧
    (specSweepTriggerCode (pyLower s) = none →
      Ev.logWarn ("Sweep trigger not set, incorrect type: " ++ pyLower s)
        ∈ run (Op.set_sweep_trigger s)) := by
  show wire (set_sweep_trigger s) = _ ∧ (_ → _ ∈ set_sweep_trigger s)
  unfold set_sweep_trigger specSweepTriggerCode
  by_cases h1 : pyLower s ∈ (["free", "freerun"] : List String)
  · simp only [if_pos h1]
    exact ⟨by decide, fun h => Option.noConfusion h⟩
  · simp only [if_neg h1]
    by_cases h2 : pyLower s ∈ (["ext", "external"] : List String)
    · simp only [if_pos h2]
      exact ⟨by decide, fun h => Option.noConfusion h⟩
    · simp only [if_neg h2]
      exact ⟨rfl, fun _ => by simp⟩

/-- Wire behaviour of the reference-source dispatcher against the spec
table, with the diagnostic on a failed match. -/
theorem set_ref_source_wire_spec (s : String) :
    wire (run (Op.set_ref_source s))
      = dispatcherWire (specRefSourceCode (pyLower s)) ∧
    (specRefSourceCode (pyLower s) = none →
      Ev.logWarn ("Reference source not set, incorrect source: " ++ pyLower s)
        ∈ run (Op.set_ref_source s)) := by
  show wire (set_ref_source s) = _ ∧ (_ → _ ∈ set_ref_source s)
  unfold set_ref_source specRefSourceCode
  by_cases h1 : pyLower s ∈ (["internal", "int"] : List String)
  · simp only [if_pos h1]
    exact ⟨by decide, fun h => Option.noConfusion h⟩
  · simp only [if_neg h1]
    by_cases h2 : pyLower s ∈ (["external", "ext"] : List String)
    · simp only [if_pos h2]
      exact ⟨by decide, fun h => Option.noConfusion h⟩
    · simp only [if_neg h2]
      exact ⟨rfl, fun _ => by simp⟩

/-- Wire behaviour of the vibration dispatcher against the spec table:
unlike the other dispatchers it has no trailing refresh, so a failed
match writes nothing at all; the diagnostic is still recorded. -/
theorem set_vibration_wire_spec (s : String) :
    wire (run (Op.set_vibration s))
      = vibrationWire (specVibrationCode (pyLower s)) ∧
    (specVibrationCode (pyLower s) = none →
      Ev.logWarn ("Vibration setting not set, incorrect option: " ++ pyLower s)
        ∈ run (Op.set_vibration s)) := by
  show wire (set_vibration s) = _ ∧ (_ → _ ∈ set_vibration s)
  unfold set_vibration specVibrationCode
  by_cases h1 : pyLower s ∈ (["on"] : List String)
  · simp only [if_pos h1]
    exact ⟨by decide, fun h => Option.noConfusion h⟩
  · simp only [if_neg h1]
    by_cases h2 : pyLower s ∈ (["off"] : List String)
    · simp only [if_pos h2]
      exact ⟨by decide, fun h => Option.noConfusion h⟩
    · simp only [if_neg h2]
      exact ⟨rfl, fun _ => by simp⟩

/-- On a match, the modulation-source dispatcher wire holds two
refreshes. -/
theorem specModulationSourceCode_count (a : String)
    (h : (specModulationSourceCode a).isSome = true) :
    (dispatcherWire (specModulationSourceCode a)).count ">GH" = 2 := by
  unfold specModulationSourceCode at h ⊢
  split_ifs at h ⊢ <;> first | decide | exact absurd h (by decide)

/-- On a match, the modulation-type dispatcher wire holds two
refreshes. -/
theorem specModulationTypeCode_count (a : String)
    (h : (specModulationTypeCode a).isSome = true) :
    (dispatcherWire (specModulationTypeCode a)).count ">GH" = 2 := by
  unfold specModulationTypeCode at h ⊢
  split_ifs at h ⊢ <;> first | decide | exact absurd h (by decide)

/-- On a match, the waveform dispatcher wire holds two refreshes. -/
theorem specWaveCode_count (a : String)
    (h : (specWaveCode a).isSome = true) :
    (dispatcherWire (specWaveCode a)).count ">GH" = 2 := by
  unfold specWaveCode at h ⊢
  split_ifs at h ⊢ <;> first | decide | exact absurd h (by decide)

/-- On a match, the sweep-trigger dispatcher wire holds two refreshes. -/
theorem specSweepTriggerCode_count (a : String)
    (h : (specSweepTriggerCode a).isSome = true) :
    (dispatcherWire (specSweepTriggerCode a)).count ">GH" = 2 := by
  unfold specSweepTriggerCode at h ⊢
  split_ifs at h ⊢ <;> first | decide | exact absurd h (by decide)

/-- On a match, the reference-source dispatcher wire holds two
refreshes. -/
theorem specRefSourceCode_count (a : String)
    (h : (specRefSourceCode a).isSome = true) :
    (dispatcherWire (specRefSourceCode a)).count ">GH" = 2 := by
  unfold specRefSourceCode at h ⊢
  split_ifs at h ⊢ <;> first | decide | exact absurd h (by decide)

/-- On a match, the vibration dispatcher wire holds one refresh (only the
inner setter refreshes). -/
theorem specVibrationCode_count (a : String)
    (h : (specVibrationCode a).isSome = true) :
    (vibrationWire (specVibrationCode a)).count ">GH" = 1 := by
  unfold specVibrationCode at h ⊢
  split_ifs at h ⊢ <;> first | decide | exact absurd h (by decide)

/-- The sub-parameter command families that the spec says the preset must
never touch. -/
def subParamCodes : List String :=
  [">SS1", ">SS2", ">SS3", ">SS4",
   ">SMI", ">SMT", ">SMW", ">SMF", ">SMA", ">SMFD", ">SMPP", ">SMPW"]

/-- C3 counterexample: `set_preset` does not emit seven commands — each of
the six inner setters carries its own refresh, so thirteen commands go on
the wire, not the claimed seven-line sequence. -/
theorem C3_counterexample :
    (wire (run Op.set_preset)).length = 13 ∧
    wire (run Op.set_preset)
      ≠ [">SF0", ">F1000000000", ">SA0", ">SM0", ">SS6", ">SR0", ">GH"] := by
  decide

/-- C3 (amended): one call of `set_preset` emits exactly thirteen commands
in fixed order — RF off, refresh, frequency 1 GHz default, refresh,
amplitude 0 dBm default, refresh, modulation off, refresh, sweep off,
refresh, reference internal, refresh, and one final trailing refresh — and
none of them belongs to a sweep- or modulation-sub-parameter command
family. -/
theorem C3_preset_wire :
    wire (run Op.set_preset) =
      [">SF0", ">GH", ">F1000000000", ">GH", ">SA0", ">GH", ">SM0", ">GH",
       ">SS6", ">GH", ">SR0", ">GH", ">GH"] ∧
    ((wire (run Op.set_preset)).any fun c =>
      subParamCodes.any fun p => p.data.isPrefixOf c.data) = false := by
  decide

/-- C4: the numeric encoder truncates float inputs toward zero and renders
decimal digits (1e9 encodes to "1000000000", 100.7 to "100", -100.7 to
"-100"), renders int inputs directly, maps every str input (unit-suffixed
text included) and any other kind to "0"; and `set_amplitude` bypasses the
encoder, emitting its int argument as a plain decimal string, so -15 stays
"-15". -/
theorem C4_numeric_encoding :
    num_to_str (PyVal.pyFloat 1000000000) = "1000000000" ∧
    num_to_str (PyVal.pyFloat (Rat.mk' 1007 10)) = "100" ∧
    num_to_str (PyVal.pyFloat (Rat.mk' (-1007) 10)) = "-100" ∧
    (∀ n : Int, num_to_str (PyVal.pyInt n) = toString n) ∧
    num_to_str (PyVal.pyInt 42) = "42" ∧
    (∀ s : String, num_to_str (PyVal.pyStr s) = "0") ∧
    num_to_str (PyVal.pyStr "1k") = "0" ∧
    num_to_str PyVal.other = "0" ∧
    (∀ a : Int, wire (run (Op.set_amplitude a)) = [">SA" ++ toString a, ">GH"]) ∧
    wire (run (Op.set_amplitude (-15))) = [">SA-15", ">GH"] := by
  refine ⟨by decide, by decide, by decide, fun n => rfl, by decide,
    fun s => rfl, by decide, by decide, fun a => rfl, by decide⟩

/-- C5: `set_frequency 1e9` then `set_amplitude 0` runs exactly the event
sequence write `>F1000000000`, flush, settle 100 ms, log, write `>GH`,
flush, settle, then the same shape for `>SA0`; the wire lines are the two
commands each immediately followed by the refresh, each transmitted as the
ASCII line plus one CR, and every write is followed by a ≥ 100 ms sleep
before the next write. -/
theorem C5_freq_ampl_scenario :
    run (Op.set_frequency (PyVal.pyFloat 1000000000)) ++ run (Op.set_amplitude 0) =
      [Ev.write ">F1000000000", Ev.flush, Ev.sleep 100, Ev.logInfo,
       Ev.write ">GH", Ev.flush, Ev.sleep 100,
       Ev.write ">SA0", Ev.flush, Ev.sleep 100, Ev.logInfo,
       Ev.write ">GH", Ev.flush, Ev.sleep 100] ∧
    wire (run (Op.set_frequency (PyVal.pyFloat 1000000000)) ++ run (Op.set_amplitude 0))
      = [">F1000000000", ">GH", ">SA0", ">GH"] ∧
    transmitted ">F1000000000" = ">F1000000000\r" ∧
    transmitted ">SA0" = ">SA0\r" ∧
    transmitted ">GH" = ">GH\r" ∧
    allWritesSettled
      (run (Op.set_frequency (PyVal.pyFloat 1000000000)) ++ run (Op.set_amplitude 0))
      = true := by
  decide

/-- C6: the queries write their command (plus CR) and flush, then
immediately read one line with no settle sleep anywhere in the trace; the
returned value is the raw line stripped twice, stripping is idempotent so
the second strip is a no-op, and on the raw response " 23.5 \n" the
returned value is "23.5". -/
theorem C6_query_behavior :
    run Op.get_temperature = [Ev.write ">RT", Ev.flush, Ev.readLine] ∧
    hasSleep (run Op.get_temperature) = false ∧
    run Op.get_current = [Ev.write ">RC", Ev.flush, Ev.readLine] ∧
    hasSleep (run Op.get_current) = false ∧
    (∀ raw, get_temperature_ret raw = pyStrip (pyStrip raw)) ∧
    (∀ raw, pyStrip (pyStrip raw) = pyStrip raw) ∧
    get_temperature_ret " 23.5 \n" = "23.5" := by
  refine ⟨by decide, by decide, by decide, by decide, fun raw => rfl,
    fun raw => pyStrip_idem raw, by decide⟩

/-- C8: the triangle waveform setter writes exactly the same wire lines as
the sine setter (code `>SMW0`, then the refresh), byte-for-byte after
framing, while ramp and square write the distinct codes `>SMW1` and
`>SMW2`. -/
theorem C8_triangle_same_as_sine :
    wire (run Op.set_modulation_wave_triangle) = wire (run Op.set_modulation_wave_sine) ∧
    (wire (run Op.set_modulation_wave_triangle)).map transmitted
      = (wire (run Op.set_modulation_wave_sine)).map transmitted ∧
    wire (run Op.set_modulation_wave_sine) = [">SMW0", ">GH"] ∧
    wire (run Op.set_modulation_wave_ramp) = [">SMW1", ">GH"] ∧
    wire (run Op.set_modulation_wave_square) = [">SMW2", ">GH"] ∧
    (">SMW1" : String) ≠ ">SMW0" ∧ (">SMW2" : String) ≠ ">SMW0" ∧
    (">SMW1" : String) ≠ ">SMW2" := by
  decide

/-- C9: if the port cannot be opened the constructor yields no driver at
all (the process exits; there is no degraded mode) and the constructor
body sends nothing on the wire; a driver exists exactly when the port
opens, and any constructed driver carries the fixed settings 9600 baud,
1 s timeout, RTS/CTS and XON/XOFF flow control. -/
theorem C9_construction :
    instERASynthMicro_init false = none ∧
    (∀ b : Bool, (instERASynthMicro_init b).isSome = b) ∧
    (∀ (b : Bool) (st : SerialSettings), instERASynthMicro_init b = some st →
      st.baudrate = 9600 ∧ st.timeoutSec = 1 ∧ st.rtscts = true ∧ st.xonxoff = true) ∧
    wire init_trace = [] := by
  refine ⟨rfl, fun b => by cases b <;> rfl, fun b st h => ?_, rfl⟩
  cases b
  · exact Option.noConfusion h
  · have h' : some requestedSettings = some st := h
    obtain rfl := (Option.some.inj h').symm
    exact ⟨rfl, rfl, rfl, rfl⟩

/-- C9 witness: the constructor succeeds on an openable port and the
resulting settings are the fixed ones. -/
theorem C9_construction_witness :
    requestedSettings.baudrate = 9600 ∧ requestedSettings.timeoutSec = 1 ∧
    requestedSettings.rtscts = true ∧ requestedSettings.xonxoff = true :=
  C9_construction.2.2.1 true requestedSettings rfl

/-- C1 counterexample: `set_modulation_source` called with the supported
alias "internal" puts two refresh commands on the wire (one from the inner
setter, one from the dispatcher), not exactly one. -/
theorem C1_counterexample :
    refreshCount (run (Op.set_modulation_source "internal")) = 2 ∧
    refreshCount (run (Op.set_modulation_source "internal")) ≠ 1 := by
  decide

/-- C1 (amended): every leaf fire-and-settle setter emits exactly one
refresh after its setting command, and the 30 ms vibration trigger emits
none; but the alias dispatchers other than `set_vibration` append a second
refresh of their own, so with a supported alias they emit exactly two
refreshes, while `set_vibration` with a supported alias emits exactly
one. -/
theorem C1_refresh_discipline :
    (refreshCount (run Op.set_rf_on) = 1 ∧
      refreshCount (run Op.set_rf_off) = 1 ∧
      refreshCount (run Op.set_modulation_on) = 1 ∧
      refreshCount (run Op.set_modulation_off) = 1 ∧
      refreshCount (run Op.set_modulation_source_internal) = 1 ∧
      refreshCount (run Op.set_modulation_source_external) = 1 ∧
      refreshCount (run Op.set_modulation_source_microphone) = 1 ∧
      refreshCount (run Op.set_modulation_type_am) = 1 ∧
      refreshCount (run Op.set_modulation_type_fm) = 1 ∧
      refreshCount (run Op.set_modulation_type_pulse) = 1 ∧
      refreshCount (run Op.set_modulation_wave_sine) = 1 ∧
      refreshCount (run Op.set_modulation_wave_ramp) = 1 ∧
      refreshCount (run Op.set_modulation_wave_square) = 1 ∧
      refreshCount (run Op.set_modulation_wave_triangle) = 1 ∧
      refreshCount (run Op.set_sweep_on) = 1 ∧
      refreshCount (run Op.set_sweep_off) = 1 ∧
      refreshCount (run Op.set_sweep_trigger_freerun) = 1 ∧
      refreshCount (run Op.set_sweep_trigger_external) = 1 ∧
      refreshCount (run Op.set_ref_source_internal) = 1 ∧
      refreshCount (run Op.set_ref_source_external) = 1 ∧
      refreshCount (run Op.set_vibration_on) = 1 ∧
      refreshCount (run Op.set_vibration_off) = 1) ∧
    (∀ v : PyVal,
      refreshCount (run (Op.set_frequency v)) = 1 ∧
      refreshCount (run (Op.set_modulation_frequency v)) = 1 ∧
      refreshCount (run (Op.set_modulation_fm_deviation v)) = 1 ∧
      refreshCount (run (Op.set_modulation_pulse_period_us v)) = 1 ∧
      refreshCount (run (Op.set_modulation_pulse_width_us v)) = 1 ∧
      refreshCount (run (Op.set_sweep_start_frequency v)) = 1 ∧
      refreshCount (run (Op.set_sweep_stop_frequency v)) = 1 ∧
      refreshCount (run (Op.set_sweep_step_frequency v)) = 1 ∧
      refreshCount (run (Op.set_sweep_dwell_time_us v)) = 1) ∧
    (∀ a : Int,
      refreshCount (run (Op.set_amplitude a)) = 1 ∧
      refreshCount (run (Op.set_modulation_am_depth a)) = 1) ∧
    refreshCount (run Op.vibrate_30ms) = 0 ∧
    (∀ s, (specModulationSourceCode (pyLower s)).isSome = true →
      refreshCount (run (Op.set_modulation_source s)) = 2) ∧
    (∀ s, (specModulationTypeCode (pyLower s)).isSome = true →
      refreshCount (run (Op.set_modulation_type s)) = 2) ∧
    (∀ s, (specWaveCode (pyLower s)).isSome = true →
      refreshCount (run (Op.set_modulation_wave_type s)) = 2) ∧
    (∀ s, (specSweepTriggerCode (pyLower s)).isSome = true →
      refreshCount (run (Op.set_sweep_trigger s)) = 2) ∧
    (∀ s, (specRefSourceCode (pyLower s)).isSome = true →
      refreshCount (run (Op.set_ref_source s)) = 2) ∧
    (∀ s, (specVibrationCode (pyLower s)).isSome = true →
      refreshCount (run (Op.set_vibration s)) = 1) := by
  refine ⟨by decide, ?_, ?_, by decide, ?_, ?_, ?_, ?_, ?_, ?_⟩
  · intro v
    exact ⟨refreshCount_leaf _ (append_ne_GH ">F" _ 'F' [] rfl (by decide)),
      refreshCount_leaf _ (append_ne_GH ">SMF" _ 'S' ['M', 'F'] rfl (by decide)),
      refreshCount_leaf _ (append_ne_GH ">SMFD" _ 'S' ['M', 'F', 'D'] rfl (by decide)),
      refreshCount_leaf _ (append_ne_GH ">SMPP" _ 'S' ['M', 'P', 'P'] rfl (by decide)),
      refreshCount_leaf _ (append_ne_GH ">SMPW" _ 'S' ['M', 'P', 'W'] rfl (by decide)),
      refreshCount_leaf _ (append_ne_GH ">SS1" _ 'S' ['S', '1'] rfl (by decide)),
      refreshCount_leaf _ (append_ne_GH ">SS2" _ 'S' ['S', '2'] rfl (by decide)),
      refreshCount_leaf _ (append_ne_GH ">SS3" _ 'S' ['S', '3'] rfl (by decide)),
      refreshCount_leaf _ (append_ne_GH ">SS4" _ 'S' ['S', '4'] rfl (by decide))⟩
  · intro a
    exact ⟨refreshCount_leaf _ (append_ne_GH ">SA" _ 'S' ['A'] rfl (by decide)),
      refreshCount_leaf _ (append_ne_GH ">SMA" _ 'S' ['M', 'A'] rfl (by decide))⟩
  · intro s h
    have hw := (set_modulation_source_wire_spec s).1
    unfold refreshCount
    rw [hw]
    exact specModulationSourceCode_count _ h
  · intro s h
    have hw := (set_modulation_type_wire_spec s).1
    unfold refreshCount
    rw [hw]
    exact specModulationTypeCode_count _ h
  · intro s h
    have hw := (set_modulation_wave_type_wire_spec s).1
    unfold refreshCount
    rw [hw]
    exact specWaveCode_count _ h
  · intro s h
    have hw := (set_sweep_trigger_wire_spec s).1
    unfold refreshCount
    rw [hw]
    exact specSweepTriggerCode_count _ h
  · intro s h
    have hw := (set_ref_source_wire_spec s).1
    unfold refreshCount
    rw [hw]
    exact specRefSourceCode_count _ h
  · intro s h
    have hw := (set_vibration_wire_spec s).1
    unfold refreshCount
    rw [hw]
    exact specVibrationCode_count _ h

/-- C1 witness: concrete instances of the amended refresh discipline. -/
theorem C1_refresh_discipline_witness :
    refreshCount (run (Op.set_modulation_source "int")) = 2 ∧
    refreshCount (run (Op.set_modulation_type "FM")) = 2 ∧
    refreshCount (run (Op.set_modulation_wave_type "ramp")) = 2 ∧
    refreshCount (run (Op.set_sweep_trigger "free")) = 2 ∧
    refreshCount (run (Op.set_ref_source "ext")) = 2 ∧
    refreshCount (run (Op.set_vibration "off")) = 1 ∧
    refreshCount (run (Op.set_frequency (PyVal.pyInt 7))) = 1 ∧
    refreshCount (run (Op.set_amplitude 3)) = 1 := by
  have h := C1_refresh_discipline
  obtain ⟨-, hV, hA, -, d1, d2, d3, d4, d5, d6⟩ := h
  exact ⟨d1 "int" (by decide), d2 "FM" (by decide), d3 "ramp" (by decide),
    d4 "free" (by decide), d5 "ext" (by decide), d6 "off" (by decide),
    (hV (PyVal.pyInt 7)).1, (hA 3).1⟩

/-- C2 counterexample: an unsupported alias does not leave the transport
untouched — `set_modulation_source "bogus"` still writes the trailing
refresh command `>GH`. -/
theorem C2_counterexample :
    wire (run (Op.set_modulation_source "bogus")) = [">GH"] ∧
    wire (run (Op.set_modulation_source "bogus")) ≠ ([] : List String) := by
  decide

/-- C2 (amended): for every alias string, matched case-insensitively, each
enumerated-setting dispatcher writes exactly the wire lines determined by
the spec's alias table — on a match the tabulated code (followed by the
refreshes), on no match no setting command, with a diagnostic recorded;
but the five dispatchers other than `set_vibration` still write their
trailing refresh `>GH` on a failed match, while `set_vibration` writes
nothing at all. -/
theorem C2_alias_dispatch (s : String) :
    (wire (run (Op.set_modulation_source s))
        = dispatcherWire (specModulationSourceCode (pyLower s)) ∧
      (specModulationSourceCode (pyLower s) = none →
        Ev.logWarn ("Modulation source not set, incorrect source: " ++ pyLower s)
          ∈ run (Op.set_modulation_source s))) ∧
    (wire (run (Op.set_modulation_type s))
        = dispatcherWire (specModulationTypeCode (pyLower s)) ∧
      (specModulationTypeCode (pyLower s) = none →
        Ev.logWarn ("Modulation type not set, incorrect type: " ++ pyLower s)
          ∈ run (Op.set_modulation_type s))) ∧
    (wire (run (Op.set_modulation_wave_type s))
        = dispatcherWire (specWaveCode (pyLower s)) ∧
      (specWaveCode (pyLower s) = none →
        Ev.logWarn ("Modulation wave type not set, incorrect wave: " ++ pyLower s)
          ∈ run (Op.set_modulation_wave_type s))) ∧
    (wire (run (Op.set_sweep_trigger s))
        = dispatcherWire (specSweepTriggerCode (pyLower s)) ∧
      (specSweepTriggerCode (pyLower s) = none →
        Ev.logWarn ("Sweep trigger not set, incorrect type: " ++ pyLower s)
          ∈ run (Op.set_sweep_trigger s))) ∧
    (wire (run (Op.set_ref_source s))
        = dispatcherWire (specRefSourceCode (pyLower s)) ∧
      (specRefSourceCode (pyLower s) = none →
        Ev.logWarn ("Reference source not set, incorrect source: " ++ pyLower s)
          ∈ run (Op.set_ref_source s))) ∧
    (wire (run (Op.set_vibration s))
        = vibrationWire (specVibrationCode (pyLower s)) ∧
      (specVibrationCode (pyLower s) = none →
        Ev.logWarn ("Vibration setting not set, incorrect option: " ++ pyLower s)
          ∈ run (Op.set_vibration s))) :=
  ⟨set_modulation_source_wire_spec s, set_modulation_type_wire_spec s,
    set_modulation_wave_type_wire_spec s, set_sweep_trigger_wire_spec s,
    set_ref_source_wire_spec s, set_vibration_wire_spec s⟩

/-- C2 witness: concrete instances — a supported alias (uppercase included)
emits exactly the tabulated code, and the unsupported alias "bogus"
triggers every dispatcher's diagnostic. -/
theorem C2_alias_dispatch_witness :
    wire (run (Op.set_modulation_source "MIC")) = [">SMI2", ">GH", ">GH"] ∧
    wire (run (Op.set_sweep_trigger "FreeRun")) = [">SS70", ">GH", ">GH"] ∧
    Ev.logWarn ("Modulation source not set, incorrect source: " ++ pyLower "bogus")
      ∈ run (Op.set_modulation_source "bogus") ∧
    Ev.logWarn ("Modulation type not set, incorrect type: " ++ pyLower "bogus")
      ∈ run (Op.set_modulation_type "bogus") ∧
    Ev.logWarn ("Modulation wave type not set, incorrect wave: " ++ pyLower "bogus")
      ∈ run (Op.set_modulation_wave_type "bogus") ∧
    Ev.logWarn ("Sweep trigger not set, incorrect type: " ++ pyLower "bogus")
      ∈ run (Op.set_sweep_trigger "bogus") ∧
    Ev.logWarn ("Reference source not set, incorrect source: " ++ pyLower "bogus")
      ∈ run (Op.set_ref_source "bogus") ∧
    Ev.logWarn ("Vibration setting not set, incorrect option: " ++ pyLower "bogus")
      ∈ run (Op.set_vibration "bogus") := by
  have hmic := (C2_alias_dispatch "MIC").1.1
  have hfree := (C2_alias_dispatch "FreeRun").2.2.2.1.1
  have hb := C2_alias_dispatch "bogus"
  exact ⟨by rw [hmic]; decide, by rw [hfree]; decide,
    hb.1.2 (by decide), hb.2.1.2 (by decide), hb.2.2.1.2 (by decide),
    hb.2.2.2.1.2 (by decide), hb.2.2.2.2.1.2 (by decide),
    hb.2.2.2.2.2.2 (by decide)⟩

/-- C10: for every option string other than a case variant of "on" or
"off", `set_vibration` writes no bytes at all — not even the refresh that
the other dispatchers still emit on a failed match, as witnessed by
`set_ref_source`, which still writes `>GH` on its own failed match — and
only records the diagnostic. -/
theorem C10_vibration_silent_on_bad_option :
    ∀ s t : String,
      pyLower s ∉ (["on", "off"] : List String) →
      specRefSourceCode (pyLower t) = none →
      wire (run (Op.set_vibration s)) = [] ∧
      Ev.logWarn ("Vibration setting not set, incorrect option: " ++ pyLower s)
        ∈ run (Op.set_vibration s) ∧
      wire (run (Op.set_ref_source t)) = [">GH"] := by
  intro s t hs ht
  have hvib : specVibrationCode (pyLower s) = none := by
    unfold specVibrationCode
    rw [if_neg, if_neg]
    · intro hmem
      exact hs (by simp only [List.mem_cons] at hmem ⊢; tauto)
    · intro hmem
      exact hs (by simp only [List.mem_cons] at hmem ⊢; tauto)
  refine ⟨?_, (set_vibration_wire_spec s).2 hvib, ?_⟩
  · rw [(set_vibration_wire_spec s).1, hvib]
    rfl
  · rw [(set_ref_source_wire_spec t).1, ht]
    rfl

/-- C10 witness: the unsupported option "bogus" on both dispatchers. -/
theorem C10_vibration_silent_witness :
    wire (run (Op.set_vibration "bogus")) = [] ∧
    Ev.logWarn ("Vibration setting not set, incorrect option: " ++ pyLower "bogus")
      ∈ run (Op.set_vibration "bogus") ∧
    wire (run (Op.set_ref_source "bogus")) = [">GH"] :=
  C10_vibration_silent_on_bad_option "bogus" "bogus" (by decide) (by decide)

/-- Membership in a two-command wire list preserves CR-freeness. -/
theorem crFree_of_mem_pair (c a b : String) (ha : a.data.count '\r' = 0)
    (hb : b.data.count '\r' = 0) (hc : c ∈ ([a, b] : List String)) :
    c.data.count '\r' = 0 := by
  rcases List.mem_cons.mp hc with rfl | h2
  · exact ha
  · rcases List.mem_cons.mp h2 with rfl | h3
    · exact hb
    · exact absurd h3 (List.not_mem_nil c)

/-- Every code in the modulation-source table is CR-free. -/
theorem specModulationSourceCode_crFree (a code : String)
    (h : specModulationSourceCode a = some code) : code.data.count '\r' = 0 := by
  unfold specModulationSourceCode at h
  split_ifs at h <;> (injection h with h2; rw [← h2]; decide)

/-- Every code in the modulation-type table is CR-free. -/
theorem specModulationTypeCode_crFree (a code : String)
    (h : specModulationTypeCode a = some code) : code.data.count '\r' = 0 := by
  unfold specModulationTypeCode at h
  split_ifs at h <;> (injection h with h2; rw [← h2]; decide)

/-- Every code in the waveform table is CR-free. -/
theorem specWaveCode_crFree (a code : String)
    (h : specWaveCode a = some code) : code.data.count '\r' = 0 := by
  unfold specWaveCode at h
  split_ifs at h <;> (injection h with h2; rw [← h2]; decide)

/-- Every code in the sweep-trigger table is CR-free. -/
theorem specSweepTriggerCode_crFree (a code : String)
    (h : specSweepTriggerCode a = some code) : code.data.count '\r' = 0 := by
  unfold specSweepTriggerCode at h
  split_ifs at h <;> (injection h with h2; rw [← h2]; decide)

/-- Every code in the reference-source table is CR-free. -/
theorem specRefSourceCode_crFree (a code : String)
    (h : specRefSourceCode a = some code) : code.data.count '\r' = 0 := by
  unfold specRefSourceCode at h
  split_ifs at h <;> (injection h with h2; rw [← h2]; decide)

/-- Every code in the vibration table is CR-free. -/
theorem specVibrationCode_crFree (a code : String)
    (h : specVibrationCode a = some code) : code.data.count '\r' = 0 := by
  unfold specVibrationCode at h
  split_ifs at h <;> (injection h with h2; rw [← h2]; decide)

/-- Every command line any operation ever writes is CR-free: the ASCII
command strings from the table, including encoded numeric parameters,
contain no carriage return. -/
theorem wire_crFree (op : Op) (c : String) (hc : c ∈ wire (run op)) :
    c.data.count '\r' = 0 := by
  cases op with
  | set_rf_on =>
    exact (by decide : ∀ x ∈ ([">SF1", ">GH"] : List String), x.data.count '\r' = 0) c hc
  | set_rf_off =>
    exact (by decide : ∀ x ∈ ([">SF0", ">GH"] : List String), x.data.count '\r' = 0) c hc
  | refresh_lcd_home =>
    exact (by decide : ∀ x ∈ ([">GH"] : List String), x.data.count '\r' = 0) c hc
  | set_frequency v =>
    exact crFree_of_mem_pair c _ _
      (crFree_append _ _ (by decide) (num_to_str_crFree v)) (by decide) hc
  | set_amplitude a =>
    exact crFree_of_mem_pair c _ _
      (crFree_append _ _ (by decide) (intToString_crFree a)) (by decide) hc
  | set_modulation_on =>
    exact (by decide : ∀ x ∈ ([">SM1", ">GH"] : List String), x.data.count '\r' = 0) c hc
  | set_modulation_off =>
    exact (by decide : ∀ x ∈ ([">SM0", ">GH"] : List String), x.data.count '\r' = 0) c hc
  | set_modulation_source_internal =>
    exact (by decide : ∀ x ∈ ([">SMI0", ">GH"] : List String), x.data.count '\r' = 0) c hc
  | set_modulation_source_external =>
    exact (by decide : ∀ x ∈ ([">SMI1", ">GH"] : List String), x.data.count '\r' = 0) c hc
  | set_modulation_source_microphone =>
    exact (by decide : ∀ x ∈ ([">SMI2", ">GH"] : List String), x.data.count '\r' = 0) c hc
  | set_modulation_source s =>
    rw [(set_modulation_source_wire_spec s).1] at hc
    cases hopt : specModulationSourceCode (pyLower s) with
    | none =>
      rw [hopt] at hc
      exact (by decide : ∀ x ∈ ([">GH"] : List String), x.data.count '\r' = 0) c hc
    | some code =>
      rw [hopt] at hc
      rcases List.mem_cons.mp hc with rfl | h2
      · exact specModulationSourceCode_crFree _ _ hopt
      · exact (by decide : ∀ x ∈ ([">GH", ">GH"] : List String), x.data.count '\r' = 0) c h2
  | set_modulation_type_am =>
    exact (by decide : ∀ x ∈ ([">SMT0", ">GH"] : List String), x.data.count '\r' = 0) c hc
  | set_modulation_type_fm =>
    exact (by decide : ∀ x ∈ ([">SMT1", ">GH"] : List String), x.data.count '\r' = 0) c hc
  | set_modulation_type_pulse =>
    exact (by decide : ∀ x ∈ ([">SMT2", ">GH"] : List String), x.data.count '\r' = 0) c hc
  | set_modulation_type s =>
    rw [(set_modulation_type_wire_spec s).1] at hc
    cases hopt : specModulationTypeCode (pyLower s) with
    | none =>
      rw [hopt] at hc
      exact (by decide : ∀ x ∈ ([">GH"] : List String), x.data.count '\r' = 0) c hc
    | some code =>
      rw [hopt] at hc
      rcases List.mem_cons.mp hc with rfl | h2
      · exact specModulationTypeCode_crFree _ _ hopt
      · exact (by decide : ∀ x ∈ ([">GH", ">GH"] : List String), x.data.count '\r' = 0) c h2
  | set_modulation_wave_sine =>
    exact (by decide : ∀ x ∈ ([">SMW0", ">GH"] : List String), x.data.count '\r' = 0) c hc
  | set_modulation_wave_ramp =>
    exact (by decide : ∀ x ∈ ([">SMW1", ">GH"] : List String), x.data.count '\r' = 0) c hc
  | set_modulation_wave_square =>
    exact (by decide : ∀ x ∈ ([">SMW2", ">GH"] : List String), x.data.count '\r' = 0) c hc
  | set_modulation_wave_triangle =>
    exact (by decide : ∀ x ∈ ([">SMW0", ">GH"] : List String), x.data.count '\r' = 0) c hc
  | set_modulation_wave_type s =>
    rw [(set_modulation_wave_type_wire_spec s).1] at hc
    cases hopt : specWaveCode (pyLower s) with
    | none =>
      rw [hopt] at hc
      exact (by decide : ∀ x ∈ ([">GH"] : List String), x.data.count '\r' = 0) c hc
    | some code =>
      rw [hopt] at hc
      rcases List.mem_cons.mp hc with rfl | h2
      · exact specWaveCode_crFree _ _ hopt
      · exact (by decide : ∀ x ∈ ([">GH", ">GH"] : List String), x.data.count '\r' = 0) c h2
  | set_modulation_frequency v =>
    exact crFree_of_mem_pair c _ _
      (crFree_append _ _ (by decide) (num_to_str_crFree v)) (by decide) hc
  | set_modulation_am_depth a =>
    exact crFree_of_mem_pair c _ _
      (crFree_append _ _ (by decide) (intToString_crFree a)) (by decide) hc
  | set_modulation_fm_deviation v =>
    exact crFree_of_mem_pair c _ _
      (crFree_append _ _ (by decide) (num_to_str_crFree v)) (by decide) hc
  | set_modulation_pulse_period_us v =>
    exact crFree_of_mem_pair c _ _
      (crFree_append _ _ (by decide) (num_to_str_crFree v)) (by decide) hc
  | set_modulation_pulse_width_us v =>
    exact crFree_of_mem_pair c _ _
      (crFree_append _ _ (by decide) (num_to_str_crFree v)) (by decide) hc
  | set_sweep_on =>
    exact (by decide : ∀ x ∈ ([">SS5", ">GH"] : List String), x.data.count '\r' = 0) c hc
  | set_sweep_off =>
    exact (by decide : ∀ x ∈ ([">SS6", ">GH"] : List String), x.data.count '\r' = 0) c hc
  | set_sweep_trigger_freerun =>
    exact (by decide : ∀ x ∈ ([">SS70", ">GH"] : List String), x.data.count '\r' = 0) c hc
  | set_sweep_trigger_external =>
    exact (by decide : ∀ x ∈ ([">SS71", ">GH"] : List String), x.data.count '\r' = 0) c hc
  | set_sweep_trigger s =>
    rw [(set_sweep_trigger_wire_spec s).1] at hc
    cases hopt : specSweepTriggerCode (pyLower s) with
    | none =>
      rw [hopt] at hc
      exact (by decide : ∀ x ∈ ([">GH"] : List String), x.data.count '\r' = 0) c hc
    | some code =>
      rw [hopt] at hc
      rcases List.mem_cons.mp hc with rfl | h2
      · exact specSweepTriggerCode_crFree _ _ hopt
      · exact (by decide : ∀ x ∈ ([">GH", ">GH"] : List String), x.data.count '\r' = 0) c h2
  | set_sweep_start_frequency v =>
    exact crFree_of_mem_pair c _ _
      (crFree_append _ _ (by decide) (num_to_str_crFree v)) (by decide) hc
  | set_sweep_stop_frequency v =>
    exact crFree_of_mem_pair c _ _
      (crFree_append _ _ (by decide) (num_to_str_crFree v)) (by decide) hc
  | set_sweep_step_frequency v =>
    exact crFree_of_mem_pair c _ _
      (crFree_append _ _ (by decide) (num_to_str_crFree v)) (by decide) hc
  | set_sweep_dwell_time_us v =>
    exact crFree_of_mem_pair c _ _
      (crFree_append _ _ (by decide) (num_to_str_crFree v)) (by decide) hc
  | set_ref_source_internal =>
    exact (by decide : ∀ x ∈ ([">SR0", ">GH"] : List String), x.data.count '\r' = 0) c hc
  | set_ref_source_external =>
    exact (by decide : ∀ x ∈ ([">SR1", ">GH"] : List String), x.data.count '\r' = 0) c hc
  | set_ref_source s =>
    rw [(set_ref_source_wire_spec s).1] at hc
    cases hopt : specRefSourceCode (pyLower s) with
    | none =>
      rw [hopt] at hc
      exact (by decide : ∀ x ∈ ([">GH"] : List String), x.data.count '\r' = 0) c hc
    | some code =>
      rw [hopt] at hc
      rcases List.mem_cons.mp hc with rfl | h2
      · exact specRefSourceCode_crFree _ _ hopt
      · exact (by decide : ∀ x ∈ ([">GH", ">GH"] : List String), x.data.count '\r' = 0) c h2
  | set_vibration_on =>
    exact (by decide : ∀ x ∈ ([">SV1", ">GH"] : List String), x.data.count '\r' = 0) c hc
  | set_vibration_off =>
    exact (by decide : ∀ x ∈ ([">SV0", ">GH"] : List String), x.data.count '\r' = 0) c hc
  | set_vibration s =>
    rw [(set_vibration_wire_spec s).1] at hc
    cases hopt : specVibrationCode (pyLower s) with
    | none =>
      rw [hopt] at hc
      exact absurd hc (List.not_mem_nil c)
    | some code =>
      rw [hopt] at hc
      rcases List.mem_cons.mp hc with rfl | h2
      · exact specVibrationCode_crFree _ _ hopt
      · exact (by decide : ∀ x ∈ ([">GH"] : List String), x.data.count '\r' = 0) c h2
  | vibrate_30ms =>
    exact (by decide : ∀ x ∈ ([">GV"] : List String), x.data.count '\r' = 0) c hc
  | set_preset =>
    exact (by decide : ∀ x ∈ ([">SF0", ">GH", ">F1000000000", ">GH", ">SA0", ">GH",
      ">SM0", ">GH", ">SS6", ">GH", ">SR0", ">GH", ">GH"] : List String),
      x.data.count '\r' = 0) c hc
  | get_temperature =>
    exact (by decide : ∀ x ∈ ([">RT"] : List String), x.data.count '\r' = 0) c hc
  | get_current =>
    exact (by decide : ∀ x ∈ ([">RC"] : List String), x.data.count '\r' = 0) c hc

/-- C7: for every operation and every argument, each byte sequence put on
the wire is the ASCII command string followed by exactly one carriage
return and nothing else: the command part contains no CR, and the
transmitted line contains exactly one CR, at the very end. -/
theorem C7_wire_framing (op : Op) (c : String) (hc : c ∈ wire (run op)) :
    c.data.count '\r' = 0 ∧
    (transmitted c).data = c.data ++ ['\r'] ∧
    (transmitted c).data.count '\r' = 1 := by
  have h0 := wire_crFree op c hc
  have h1 : (transmitted c).data = c.data ++ ['\r'] := rfl
  refine ⟨h0, h1, ?_⟩
  rw [h1, List.count_append, h0]
  decide

/-- C7 witness: the framing at a concrete operation and command. -/
theorem C7_wire_framing_witness :
    (">SF1" : String).data.count '\r' = 0 ∧
    (transmitted ">SF1").data = (">SF1" : String).data ++ ['\r'] ∧
    (transmitted ">SF1").data.count '\r' = 1 :=
  C7_wire_framing Op.set_rf_on ">SF1" (by decide)

end ERASynthMicro
